import Mathlib

/-!
Shallow embedding of the mb-forwarder Modbus gateway (Go sources
config.go, forwarder.go, main.go) and proofs about its behaviour.

Bytes are modelled as Nat values; where the Go code casts to byte we
take the value modulo 256.  Go maps keyed by byte are modelled as
association lists over Nat.  Fallible Go functions returning
(value, error) are modelled with Except String.  The backend Modbus
client (the external goburrow library) is modelled as an oracle
function passed to each handler; each handler records in its outcome
whether the oracle was invoked, which captures whether the backend was
contacted.
-/

deriving instance DecidableEq for Except

namespace MbForwarder

/-- Configuration for one backend server, mirroring the Server struct of
config.go (yaml fields conn_type, slave_id, addr, port, baud_rate,
data_bits, stop_bits, parity, timeout). -/
structure Server where
  connType : String
  slaveID  : Int
  addr     : String
  port     : Int
  baudRate : Int
  dataBits : Int
  stopBits : Int
  parity   : String
  timeout  : Int
deriving Repr, DecidableEq

/-- Top-level configuration, mirroring the Config struct of config.go:
a listen port and a map from slave id (a byte) to Server. -/
structure Config where
  listenPort : Int
  servers    : List (Nat × Server)
deriving Repr, DecidableEq

/-- An inbound frame as seen through the mbserver.Framer interface:
Bytes() gives the raw frame (for Modbus-TCP: 7-byte MBAP header,
function code, then data) and GetData() gives the PDU data after the
function code. -/
structure Frame where
  bytes : List Nat
  data  : List Nat
deriving Repr, DecidableEq

/-- Mutable per-backend state of a modbusClient (forwarder.go):
the last observed error (as its message), the time of the last
successful contact (lastConn), and whether the transport is open
(closed only by Stop). -/
structure ClientState where
  lastError     : Option String
  lastConn      : Nat
  transportOpen : Bool
deriving Repr, DecidableEq

/-- Result of one function-code handler invocation: the response data
returned to mbserver (none on error), the mbserver exception code
(&mbserver.Success etc.), and whether the backend client was invoked. -/
structure HandlerOutcome where
  response      : Option (List Nat)
  exception     : Nat
  backendCalled : Bool
deriving Repr, DecidableEq

/-- mbserver.Success exception code. -/
def success : Nat := 0

/-- mbserver.IllegalDataAddress exception code. -/
def illegalDataAddress : Nat := 2

/-- mbserver.SlaveDeviceFailure exception code. -/
def slaveDeviceFailure : Nat := 4

/-- Boolean test for the ok branch of an Except value. -/
def isOkE {α : Type} (x : Except String α) : Bool :=
  match x with
  | .ok _ => true
  | .error _ => false

/-- getSlaveID of forwarder.go: returns 0 when the raw frame has fewer
than 7 bytes, otherwise byte 6 of the frame (the MBAP unit identifier). -/
def getSlaveID (frame : Frame) : Nat :=
  if frame.bytes.length < 7 then 0 else frame.bytes.getD 6 0

/-- parseRequest of forwarder.go: used by the four read handlers.
Fails when the PDU data has fewer than 4 bytes, when the frame slave id
is 0 (absent or too-short frame), or when the slave id is not a key of
the configured server map; otherwise yields the slave id and the
big-endian address and quantity fields. -/
def parseRequest (servers : List (Nat × Server)) (frame : Frame) :
    Except String (Nat × Nat × Nat) :=
  let data := frame.data
  if data.length < 4 then .error "insufficient data"
  else
    let frameSlaveID := getSlaveID frame
    if frameSlaveID = 0 then .error "failed to get slaveID from frame"
    else if (servers.lookup frameSlaveID).isNone then .error "slave not configured"
    else
      let address := ((data.getD 0 0) <<< 8) ||| data.getD 1 0
      let quantity := ((data.getD 2 0) <<< 8) ||| data.getD 3 0
      .ok (frameSlaveID, address, quantity)

/-- parseWriteSingleRequest of forwarder.go: identical shape to
parseRequest, yielding address and value. -/
def parseWriteSingleRequest (servers : List (Nat × Server)) (frame : Frame) :
    Except String (Nat × Nat × Nat) :=
  let data := frame.data
  if data.length < 4 then .error "insufficient data"
  else
    let frameSlaveID := getSlaveID frame
    if frameSlaveID = 0 then .error "failed to get slaveID from frame"
    else if (servers.lookup frameSlaveID).isNone then .error "slave not configured"
    else
      let address := ((data.getD 0 0) <<< 8) ||| data.getD 1 0
      let value := ((data.getD 2 0) <<< 8) ||| data.getD 3 0
      .ok (frameSlaveID, address, value)

/-- parseWriteMultipleRequest of forwarder.go: requires at least 6 data
bytes, then a valid configured slave id, then at least 5 + byteCount
data bytes; yields slave id, address, quantity and the byteCount data
bytes (frameData[5 : 5+byteCount]). -/
def parseWriteMultipleRequest (servers : List (Nat × Server)) (frame : Frame) :
    Except String (Nat × Nat × Nat × List Nat) :=
  let frameData := frame.data
  if frameData.length < 6 then .error "insufficient data"
  else
    let frameSlaveID := getSlaveID frame
    if frameSlaveID = 0 then .error "failed to get slaveID from frame"
    else if (servers.lookup frameSlaveID).isNone then .error "slave not configured"
    else
      let address := ((frameData.getD 0 0) <<< 8) ||| frameData.getD 1 0
      let quantity := ((frameData.getD 2 0) <<< 8) ||| frameData.getD 3 0
      let byteCount := frameData.getD 4 0
      if frameData.length < 5 + byteCount then .error "insufficient data for byte count"
      else .ok (frameSlaveID, address, quantity, (frameData.drop 5).take byteCount)

/-- A backend oracle for the read and write-single handlers: given the
two decoded u16 fields (address and quantity, or address and value) it
returns the bytes the goburrow client call yields, or a transport
error.  For the read functions the goburrow client returns the raw data
bytes of the backend response (2 bytes per register for codes 3 and 4,
packed coil bytes for codes 1 and 2). -/
def Backend2 : Type := Nat → Nat → Except String (List Nat)

/-- A backend oracle for the write-multiple handlers: address, quantity
and the payload bytes sent to the backend. -/
def Backend3 : Type := Nat → Nat → List Nat → Except String (List Nat)

/-- readCoils handler (function code 1) of forwarder.go.  On parse
failure it returns IllegalDataAddress without calling the backend; on a
missing client SlaveDeviceFailure; on backend error SlaveDeviceFailure;
on success a response of byteCount(= len results mod 256) followed by
the result bytes.  Go never mutates the client map or any client state
here, so the state component is returned unchanged. -/
def readCoils (cfg : Config) (clients : List (Nat × ClientState)) (frame : Frame)
    (backend : Backend2) : HandlerOutcome × List (Nat × ClientState) :=
  let out : HandlerOutcome :=
    match parseRequest cfg.servers frame with
    | .error _ => ⟨none, illegalDataAddress, false⟩
    | .ok (slaveID, address, quantity) =>
      match clients.lookup slaveID with
      | none => ⟨none, slaveDeviceFailure, false⟩
      | some _ =>
        match backend address quantity with
        | .error _ => ⟨none, slaveDeviceFailure, true⟩
        | .ok results => ⟨some ((results.length % 256) :: results), success, true⟩
  (out, clients)

/-- readDiscreteInputs handler (function code 2) of forwarder.go; same
shape as readCoils. -/
def readDiscreteInputs (cfg : Config) (clients : List (Nat × ClientState)) (frame : Frame)
    (backend : Backend2) : HandlerOutcome × List (Nat × ClientState) :=
  let out : HandlerOutcome :=
    match parseRequest cfg.servers frame with
    | .error _ => ⟨none, illegalDataAddress, false⟩
    | .ok (slaveID, address, quantity) =>
      match clients.lookup slaveID with
      | none => ⟨none, slaveDeviceFailure, false⟩
      | some _ =>
        match backend address quantity with
        | .error _ => ⟨none, slaveDeviceFailure, true⟩
        | .ok results => ⟨some ((results.length % 256) :: results), success, true⟩
  (out, clients)

/-- readHoldingRegisters handler (function code 3) of forwarder.go.
The goburrow ReadHoldingRegisters call returns the raw data BYTES (two
per register); the Go code nevertheless sets response[0] to
byte(len(results) * 2) and then copies the result bytes, so the
byte-count byte is twice the number of data bytes that follow. -/
def readHoldingRegisters (cfg : Config) (clients : List (Nat × ClientState)) (frame : Frame)
    (backend : Backend2) : HandlerOutcome × List (Nat × ClientState) :=
  let out : HandlerOutcome :=
    match parseRequest cfg.servers frame with
    | .error _ => ⟨none, illegalDataAddress, false⟩
    | .ok (slaveID, address, quantity) =>
      match clients.lookup slaveID with
      | none => ⟨none, slaveDeviceFailure, false⟩
      | some _ =>
        match backend address quantity with
        | .error _ => ⟨none, slaveDeviceFailure, true⟩
        | .ok results => ⟨some ((results.length * 2 % 256) :: results), success, true⟩
  (out, clients)

/-- readInputRegisters handler (function code 4) of forwarder.go; same
shape (and same byte-count computation) as readHoldingRegisters. -/
def readInputRegisters (cfg : Config) (clients : List (Nat × ClientState)) (frame : Frame)
    (backend : Backend2) : HandlerOutcome × List (Nat × ClientState) :=
  let out : HandlerOutcome :=
    match parseRequest cfg.servers frame with
    | .error _ => ⟨none, illegalDataAddress, false⟩
    | .ok (slaveID, address, quantity) =>
      match clients.lookup slaveID with
      | none => ⟨none, slaveDeviceFailure, false⟩
      | some _ =>
        match backend address quantity with
        | .error _ => ⟨none, slaveDeviceFailure, true⟩
        | .ok results => ⟨some ((results.length * 2 % 256) :: results), success, true⟩
  (out, clients)

/-- writeSingleCoil handler (function code 5) of forwarder.go.  The
decoded value is forwarded to the backend unchanged, whatever it is;
the comparison value == 0xFF00 is computed only for the log line.  On
success the first four data bytes of the request are echoed. -/
def writeSingleCoil (cfg : Config) (clients : List (Nat × ClientState)) (frame : Frame)
    (backend : Backend2) : HandlerOutcome × List (Nat × ClientState) :=
  let out : HandlerOutcome :=
    match parseWriteSingleRequest cfg.servers frame with
    | .error _ => ⟨none, illegalDataAddress, false⟩
    | .ok (slaveID, address, value) =>
      match clients.lookup slaveID with
      | none => ⟨none, slaveDeviceFailure, false⟩
      | some _ =>
        match backend address value with
        | .error _ => ⟨none, slaveDeviceFailure, true⟩
        | .ok _ => ⟨some (frame.data.take 4), success, true⟩
  (out, clients)

/-- writeSingleRegister handler (function code 6) of forwarder.go; same
shape as writeSingleCoil. -/
def writeSingleRegister (cfg : Config) (clients : List (Nat × ClientState)) (frame : Frame)
    (backend : Backend2) : HandlerOutcome × List (Nat × ClientState) :=
  let out : HandlerOutcome :=
    match parseWriteSingleRequest cfg.servers frame with
    | .error _ => ⟨none, illegalDataAddress, false⟩
    | .ok (slaveID, address, value) =>
      match clients.lookup slaveID with
      | none => ⟨none, slaveDeviceFailure, false⟩
      | some _ =>
        match backend address value with
        | .error _ => ⟨none, slaveDeviceFailure, true⟩
        | .ok _ => ⟨some (frame.data.take 4), success, true⟩
  (out, clients)

/-- Coil unpacking loop of writeMultipleCoils: coil i is bit (i mod 8)
of data byte (i div 8), read as false when the byte index is out of
range (the Go loop guards byteIndex < len(data) and leaves false). -/
def coilsOf (quantity : Nat) (data : List Nat) : List Bool :=
  (List.range quantity).map fun i =>
    ((data.getD (i / 8) 0) &&& (1 <<< (i % 8))) != 0

/-- Coil repacking loop of writeMultipleCoils: (quantity+7)/8 bytes,
bit (i mod 8) of byte (i div 8) set when coil i is true. -/
def packCoils (quantity : Nat) (coils : List Bool) : List Nat :=
  (List.range ((quantity + 7) / 8)).map fun byteIndex =>
    (List.range 8).foldl
      (fun acc bitIndex =>
        if coils.getD (byteIndex * 8 + bitIndex) false then acc ||| (1 <<< bitIndex) else acc)
      0

/-- writeMultipleCoils handler (function code 15) of forwarder.go.  On
success the Go code returns frameData[0 : quantity*4], clipped to the
frame data length when quantity*4 exceeds it. -/
def writeMultipleCoils (cfg : Config) (clients : List (Nat × ClientState)) (frame : Frame)
    (backend : Backend3) : HandlerOutcome × List (Nat × ClientState) :=
  let out : HandlerOutcome :=
    match parseWriteMultipleRequest cfg.servers frame with
    | .error _ => ⟨none, illegalDataAddress, false⟩
    | .ok (slaveID, address, quantity, data) =>
      match clients.lookup slaveID with
      | none => ⟨none, slaveDeviceFailure, false⟩
      | some _ =>
        let coilBytes := packCoils quantity (coilsOf quantity data)
        match backend address quantity coilBytes with
        | .error _ => ⟨none, slaveDeviceFailure, true⟩
        | .ok _ =>
            let frameData := frame.data
            let maxLen := frameData.length
            if quantity * 4 > maxLen then ⟨some frameData, success, true⟩
            else ⟨some (frameData.take (quantity * 4)), success, true⟩
  (out, clients)

/-- Register decoding loop of writeMultipleRegisters: register i is the
big-endian pair at data[2i], data[2i+1]; the Go loop stops early (and
leaves 0) once 2i+1 reaches len(data). -/
def registersOf (quantity : Nat) (data : List Nat) : List Nat :=
  (List.range quantity).map fun i =>
    if i * 2 + 1 < data.length then
      (((data.getD (i * 2) 0) <<< 8) ||| data.getD (i * 2 + 1) 0) % 65536
    else 0

/-- Register re-encoding loop of writeMultipleRegisters: each register
becomes its high byte then its low byte. -/
def registerBytesOf (regs : List Nat) : List Nat :=
  (regs.map fun v => [(v >>> 8) % 256, v % 256]).flatten

/-- writeMultipleRegisters handler (function code 16) of forwarder.go;
on success the same quantity*4 clipping of the frame data as
writeMultipleCoils. -/
def writeMultipleRegisters (cfg : Config) (clients : List (Nat × ClientState)) (frame : Frame)
    (backend : Backend3) : HandlerOutcome × List (Nat × ClientState) :=
  let out : HandlerOutcome :=
    match parseWriteMultipleRequest cfg.servers frame with
    | .error _ => ⟨none, illegalDataAddress, false⟩
    | .ok (slaveID, address, quantity, data) =>
      match clients.lookup slaveID with
      | none => ⟨none, slaveDeviceFailure, false⟩
      | some _ =>
        let registerBytes := registerBytesOf (registersOf quantity data)
        match backend address quantity registerBytes with
        | .error _ => ⟨none, slaveDeviceFailure, true⟩
        | .ok _ =>
            let frameData := frame.data
            let maxLen := frameData.length
            if quantity * 4 > maxLen then ⟨some frameData, success, true⟩
            else ⟨some (frameData.take (quantity * 4)), success, true⟩
  (out, clients)

/-- Loop body of checkConnections (forwarder.go) for one client: probe
is the outcome of the ReadHoldingRegisters(1, 1) health probe, now the
current time.  Returns whether a log line was emitted and the new client
state.  On a probe error the Go code logs and stores the error exactly
when there was no previous error or the previous error message differs;
on success it logs exactly when a previous error is being cleared, and
always refreshes lastConn. -/
def checkStep (st : ClientState) (probe : Except String (List Nat)) (now : Nat) :
    Bool × ClientState :=
  match probe with
  | .error e =>
      if st.lastError = none ∨ st.lastError ≠ some e then
        (true, { st with lastError := some e })
      else
        (false, st)
  | .ok _ =>
      if st.lastError ≠ none then
        (true, { st with lastError := none, lastConn := now })
      else
        (false, { st with lastConn := now })

/-- validateServer of config.go.  In Go the Server argument is passed
by value (a copy of the map entry), so the default values assigned here
exist only in the local copy; the returned Server is the final value of
that local variable, which the Go caller discards. -/
def validateServer (slaveID : Nat) (server : Server) : Except String Server :=
  if slaveID < 1 ∨ slaveID > 255 then .error "invalid slave_id"
  else if server.connType = "" then .error "conn_type is required"
  else if server.connType ≠ "tcp" ∧ server.connType ≠ "rtu" then .error "invalid conn_type"
  else do
    let server ←
      if server.connType = "tcp" then
        if server.addr = "" then Except.error "addr is required for TCP connection"
        else pure (if server.port ≤ 0 then { server with port := 502 } else server)
      else if server.connType = "rtu" then
        if server.addr = "" then Except.error "addr is required for RTU connection"
        else
          let server := if server.baudRate ≤ 0 then { server with baudRate := 9600 } else server
          let server := if server.dataBits ≤ 0 then { server with dataBits := 8 } else server
          let server := if server.stopBits ≤ 0 then { server with stopBits := 1 } else server
          let server := if server.parity = "" then { server with parity := "N" } else server
          pure server
      else pure server
    let server := if server.timeout ≤ 0 then { server with timeout := 2 } else server
    pure server

/-- validateConfig of config.go: defaults ListenPort (a field of the
global C, so this assignment persists), requires a non-empty server
map, and runs validateServer on a copy of every entry.  Because Go map
iteration yields copies and validateServer takes its Server by value,
the per-server defaults computed inside validateServer never reach the
stored configuration: the servers list of the result is the input one. -/
def validateConfig (c : Config) : Except String Config :=
  let c := if c.listenPort ≤ 0 then { c with listenPort := 1602 } else c
  if c.servers.length = 0 then .error "no servers configured"
  else do
    let _ ← c.servers.mapM fun p => validateServer p.1 p.2
    pure c

/-- Helper to build a well-formed inbound Modbus-TCP frame for a given
unit id, function code and PDU data: 7-byte MBAP header (transaction id
0x0001, protocol id 0, length = 2 + data length), function code, data.
The data component is what mbserver's GetData() exposes. -/
def mkTcpFrame (unitID fc : Nat) (data : List Nat) : Frame :=
  let len := 2 + data.length
  ⟨[0, 1, 0, 0, (len >>> 8) % 256, len % 256, unitID, fc] ++ data, data⟩

/-- A concrete TCP server entry (slave 1), as validateConfig would
accept it. -/
def srvTcp : Server := ⟨"tcp", 1, "192.168.0.10", 502, 0, 0, 0, "", 2⟩

/-- A concrete configuration with slave 1 only. -/
def cfg1 : Config := ⟨1602, [(1, srvTcp)]⟩

/-- A fresh client state: no recorded error, transport open. -/
def st0 : ClientState := ⟨none, 0, true⟩

/-- Client map for cfg1 with a fresh client for slave 1. -/
def clients1 : List (Nat × ClientState) := [(1, st0)]

/-- A client state carrying a stale recorded error. -/
def stErr : ClientState := ⟨some "boom", 5, true⟩

/-- Client map for cfg1 whose slave-1 client carries a stale error. -/
def clientsErr : List (Nat × ClientState) := [(1, stErr)]

/-- A TCP server entry relying on the loader defaults: port, baud
parameters and timeout all unset (zero). -/
def badSrv : Server := ⟨"tcp", 1, "h", 0, 0, 0, 0, "", 0⟩

lemma parseRequest_error_of_bad (servers : List (Nat × Server)) (frame : Frame)
    (h : getSlaveID frame = 0 ∨ servers.lookup (getSlaveID frame) = none) :
    ∃ e, parseRequest servers frame = .error e := by
  unfold parseRequest
  dsimp only
  split_ifs with h1 h2 h3
  · exact ⟨_, rfl⟩
  · exact ⟨_, rfl⟩
  · exact ⟨_, rfl⟩
  · rcases h with h0 | hn
    · exact absurd h0 h2
    · simp [hn] at h3

lemma parseWriteSingle_error_of_bad (servers : List (Nat × Server)) (frame : Frame)
    (h : getSlaveID frame = 0 ∨ servers.lookup (getSlaveID frame) = none) :
    ∃ e, parseWriteSingleRequest servers frame = .error e := by
  unfold parseWriteSingleRequest
  dsimp only
  split_ifs with h1 h2 h3
  · exact ⟨_, rfl⟩
  · exact ⟨_, rfl⟩
  · exact ⟨_, rfl⟩
  · rcases h with h0 | hn
    · exact absurd h0 h2
    · simp [hn] at h3

lemma parseWriteMultiple_error_of_bad (servers : List (Nat × Server)) (frame : Frame)
    (h : getSlaveID frame = 0 ∨ servers.lookup (getSlaveID frame) = none) :
    ∃ e, parseWriteMultipleRequest servers frame = .error e := by
  unfold parseWriteMultipleRequest
  dsimp only
  split_ifs with h1 h2 h3 h4
  · exact ⟨_, rfl⟩
  · exact ⟨_, rfl⟩
  · exact ⟨_, rfl⟩
  · exact ⟨_, rfl⟩
  · rcases h with h0 | hn
    · exact absurd h0 h2
    · simp [hn] at h3

lemma isOkE_eq_false {α : Type} (x : Except String α) :
    isOkE x = false ↔ ∃ e, x = .error e := by
  cases x <;> simp [isOkE]

lemma parseRequest_isOk_iff (servers : List (Nat × Server)) (frame : Frame) :
    isOkE (parseRequest servers frame) = true ↔
      (4 ≤ frame.data.length ∧ getSlaveID frame ≠ 0 ∧
        servers.lookup (getSlaveID frame) ≠ none) := by
  unfold parseRequest
  dsimp only
  split_ifs with h1 h2 h3
  · simp [isOkE]; omega
  · simp [isOkE, h2]
  · rw [Option.isNone_iff_eq_none] at h3
    simp [isOkE, h3]
  · rw [Option.isNone_iff_eq_none] at h3
    simp only [isOkE, true_iff]
    exact ⟨by omega, h2, h3⟩

lemma parseWriteSingle_isOk_iff (servers : List (Nat × Server)) (frame : Frame) :
    isOkE (parseWriteSingleRequest servers frame) = true ↔
      (4 ≤ frame.data.length ∧ getSlaveID frame ≠ 0 ∧
        servers.lookup (getSlaveID frame) ≠ none) := by
  unfold parseWriteSingleRequest
  dsimp only
  split_ifs with h1 h2 h3
  · simp [isOkE]; omega
  · simp [isOkE, h2]
  · rw [Option.isNone_iff_eq_none] at h3
    simp [isOkE, h3]
  · rw [Option.isNone_iff_eq_none] at h3
    simp only [isOkE, true_iff]
    exact ⟨by omega, h2, h3⟩

lemma parseWriteMultiple_isOk_iff (servers : List (Nat × Server)) (frame : Frame) :
    isOkE (parseWriteMultipleRequest servers frame) = true ↔
      (6 ≤ frame.data.length ∧ getSlaveID frame ≠ 0 ∧
        servers.lookup (getSlaveID frame) ≠ none ∧
        5 + frame.data.getD 4 0 ≤ frame.data.length) := by
  unfold parseWriteMultipleRequest
  dsimp only
  split_ifs with h1 h2 h3 h4
  · simp [isOkE]; omega
  · simp [isOkE, h2]
  · rw [Option.isNone_iff_eq_none] at h3
    simp [isOkE, h3]
  · rw [Option.isNone_iff_eq_none] at h3
    simp only [isOkE, Bool.false_eq_true, false_iff]
    intro h
    exact absurd h.2.2.2 (by omega)
  · rw [Option.isNone_iff_eq_none] at h3
    simp only [isOkE, true_iff]
    exact ⟨by omega, h2, h3, by omega⟩

/-- C1: the claim expects that a successful Read Holding Registers of
quantity 2 against a backend holding registers 0x0001, 0x00FF produces
response data 04 00 01 00 FF (byte count 2 times the quantity).  The
code instead sets the byte-count byte to twice the number of result
BYTES — here 8 — because the goburrow client already returns two bytes
per register, so the handler emits 08 00 01 00 FF: the byte-count byte
contradicts the four data bytes that follow it. -/
theorem readHoldingRegisters_byteCount_bug :
    (readHoldingRegisters cfg1 clients1 (mkTcpFrame 1 3 [0, 0, 0, 2])
        (fun _ _ => .ok [0, 1, 0, 255])).1 =
      ⟨some [8, 0, 1, 0, 255], success, true⟩ ∧
    [(8 : Nat), 0, 1, 0, 255] ≠ [4, 0, 1, 0, 255] := by
  decide

/-- C2: the claim expects a fixed 4-byte echo from Write Multiple Coils
independent of quantity.  For quantity 7 (frame data of 6 bytes:
address 0, quantity 7, byte count 1, one data byte) the code returns
frameData[0 : min(quantity*4, len)] — all 6 bytes — not 4. -/
theorem writeMultipleCoils_echo_bug :
    ((writeMultipleCoils cfg1 clients1 (mkTcpFrame 1 15 [0, 0, 0, 7, 1, 85])
        (fun _ _ _ => .ok [])).1.response.map List.length) = some 6 ∧
    ((writeMultipleCoils cfg1 clients1 (mkTcpFrame 1 15 [0, 0, 0, 7, 1, 85])
        (fun _ _ _ => .ok [])).1.response.map List.length) ≠ some 4 := by
  decide

/-- C3 counterexample: a Write Single Coil request whose value field is
0x1234 — neither 0xFF00 nor 0x0000 — is not rejected: the handler calls
the backend (backendCalled = true), contradicting the claim that such a
value is rejected before any backend call. -/
theorem writeSingleCoil_invalid_value_forwarded :
    (writeSingleCoil cfg1 clients1 (mkTcpFrame 1 5 [0, 0, 18, 52])
        (fun _ _ => .ok [])).1.backendCalled = true ∧
    parseWriteSingleRequest cfg1.servers (mkTcpFrame 1 5 [0, 0, 18, 52]) =
      .ok (1, 0, 4660) ∧
    (4660 : Nat) ≠ 65280 ∧ (4660 : Nat) ≠ 0 := by
  decide

/-- C5 counterexample: a Write Multiple (code 15) PDU whose data is 5
bytes with byteCount = 0 meets the claimed minimum of 5 + byteCount
bytes, yet parseWriteMultipleRequest rejects it, because the code first
requires at least 6 data bytes. -/
theorem parseWriteMultiple_five_byte_rejected :
    isOkE (parseWriteMultipleRequest cfg1.servers (mkTcpFrame 1 15 [0, 0, 0, 0, 0])) = false ∧
    ¬ ((mkTcpFrame 1 15 [0, 0, 0, 0, 0]).data.length <
        5 + (mkTcpFrame 1 15 [0, 0, 0, 0, 0]).data.getD 4 0) := by
  decide

/-- C6 counterexample: a successful Read Coils round trip through a
client whose state carries a stale error leaves that state byte-for-byte
unchanged — lastError is not cleared and lastConn is not refreshed —
contradicting the claim that the request path updates them. -/
theorem readCoils_leaves_state_stale :
    (readCoils cfg1 clientsErr (mkTcpFrame 1 1 [0, 0, 0, 2])
        (fun _ _ => .ok [1])).1.exception = success ∧
    (readCoils cfg1 clientsErr (mkTcpFrame 1 1 [0, 0, 0, 2])
        (fun _ _ => .ok [1])).2 = clientsErr ∧
    stErr.lastError = some "boom" ∧ stErr.lastConn = 5 := by
  decide

/-- C7 counterexample: a probe tick that fails with a new error message
against a client that is already failing emits a log line even though no
healthy-to-failing or failing-to-healthy transition occurs (the state is
failing before and after). -/
theorem checkStep_relogs_changed_error :
    (checkStep stErr (.error "crash") 7).1 = true ∧
    stErr.lastError ≠ none ∧
    (checkStep stErr (.error "crash") 7).2.lastError ≠ none := by
  decide

/-- C8: for a TCP server with port and timeout left at 0, validateConfig
succeeds and defaults the listen port, but the stored server entry still
has port 0 and timeout 0: validateServer computed port 502 and timeout 2
on its by-value copy, which the caller discards, so the documented
defaults never reach the configuration the core later reads. -/
theorem validateConfig_drops_server_defaults :
    validateConfig ⟨0, [(1, badSrv)]⟩ = .ok ⟨1602, [(1, badSrv)]⟩ ∧
    validateServer 1 badSrv = .ok { badSrv with port := 502, timeout := 2 } ∧
    badSrv.port = 0 ∧ badSrv.timeout = 0 := by
  decide

/-- C4: for every inbound request whose frame carries a unit identifier
(at least 7 raw bytes) that is not a key of the configured server map,
every one of the eight function-code handlers returns the
IllegalDataAddress exception, calls no backend, and leaves the client
map unchanged. -/
theorem unknownSlave_illegalDataAddress (cfg : Config) (clients : List (Nat × ClientState))
    (frame : Frame) (b1 b2 b3 b4 b5 b6 : Backend2) (b7 b8 : Backend3)
    (h7 : 7 ≤ frame.bytes.length)
    (habs : cfg.servers.lookup (frame.bytes.getD 6 0) = none) :
    readCoils cfg clients frame b1 = (⟨none, illegalDataAddress, false⟩, clients) ∧
    readDiscreteInputs cfg clients frame b2 = (⟨none, illegalDataAddress, false⟩, clients) ∧
    readHoldingRegisters cfg clients frame b3 = (⟨none, illegalDataAddress, false⟩, clients) ∧
    readInputRegisters cfg clients frame b4 = (⟨none, illegalDataAddress, false⟩, clients) ∧
    writeSingleCoil cfg clients frame b5 = (⟨none, illegalDataAddress, false⟩, clients) ∧
    writeSingleRegister cfg clients frame b6 = (⟨none, illegalDataAddress, false⟩, clients) ∧
    writeMultipleCoils cfg clients frame b7 = (⟨none, illegalDataAddress, false⟩, clients) ∧
    writeMultipleRegisters cfg clients frame b8 = (⟨none, illegalDataAddress, false⟩, clients) := by
  have hgs : getSlaveID frame = frame.bytes.getD 6 0 := by
    unfold getSlaveID
    rw [if_neg (by omega)]
  have hbad : getSlaveID frame = 0 ∨ cfg.servers.lookup (getSlaveID frame) = none :=
    Or.inr (by rw [hgs]; exact habs)
  obtain ⟨e1, hp1⟩ := parseRequest_error_of_bad cfg.servers frame hbad
  obtain ⟨e2, hp2⟩ := parseWriteSingle_error_of_bad cfg.servers frame hbad
  obtain ⟨e3, hp3⟩ := parseWriteMultiple_error_of_bad cfg.servers frame hbad
  refine ⟨?_, ?_, ?_, ?_, ?_, ?_, ?_, ?_⟩ <;>
    simp [readCoils, readDiscreteInputs, readHoldingRegisters, readInputRegisters,
      writeSingleCoil, writeSingleRegister, writeMultipleCoils, writeMultipleRegisters,
      hp1, hp2, hp3]

/-- C4 witness: slave 2 is not configured in cfg1, and a Read Coils
request addressed to unit 2 yields IllegalDataAddress without a backend
call. -/
theorem unknownSlave_illegalDataAddress_witness :
    7 ≤ (mkTcpFrame 2 1 [0, 0, 0, 1]).bytes.length ∧
    cfg1.servers.lookup ((mkTcpFrame 2 1 [0, 0, 0, 1]).bytes.getD 6 0) = none ∧
    readCoils cfg1 clients1 (mkTcpFrame 2 1 [0, 0, 0, 1]) (fun _ _ => .ok []) =
      (⟨none, illegalDataAddress, false⟩, clients1) :=
  ⟨by decide, by decide,
    (unknownSlave_illegalDataAddress cfg1 clients1 (mkTcpFrame 2 1 [0, 0, 0, 1])
      (fun _ _ => .ok []) (fun _ _ => .ok []) (fun _ _ => .ok []) (fun _ _ => .ok [])
      (fun _ _ => .ok []) (fun _ _ => .ok []) (fun _ _ _ => .ok []) (fun _ _ _ => .ok [])
      (by decide) (by decide)).1⟩

/-- C10: for every inbound request whose raw frame is shorter than 7
bytes or whose unit-identifier byte (byte 6) is 0, getSlaveID yields 0
and every one of the eight function-code handlers returns the
IllegalDataAddress exception without contacting any backend. -/
theorem zeroSlave_illegalDataAddress (cfg : Config) (clients : List (Nat × ClientState))
    (frame : Frame) (b1 b2 b3 b4 b5 b6 : Backend2) (b7 b8 : Backend3)
    (h : frame.bytes.length < 7 ∨ frame.bytes.getD 6 0 = 0) :
    readCoils cfg clients frame b1 = (⟨none, illegalDataAddress, false⟩, clients) ∧
    readDiscreteInputs cfg clients frame b2 = (⟨none, illegalDataAddress, false⟩, clients) ∧
    readHoldingRegisters cfg clients frame b3 = (⟨none, illegalDataAddress, false⟩, clients) ∧
    readInputRegisters cfg clients frame b4 = (⟨none, illegalDataAddress, false⟩, clients) ∧
    writeSingleCoil cfg clients frame b5 = (⟨none, illegalDataAddress, false⟩, clients) ∧
    writeSingleRegister cfg clients frame b6 = (⟨none, illegalDataAddress, false⟩, clients) ∧
    writeMultipleCoils cfg clients frame b7 = (⟨none, illegalDataAddress, false⟩, clients) ∧
    writeMultipleRegisters cfg clients frame b8 = (⟨none, illegalDataAddress, false⟩, clients) := by
  have hgs : getSlaveID frame = 0 := by
    unfold getSlaveID
    rcases h with h7 | h0
    · rw [if_pos h7]
    · by_cases h7 : frame.bytes.length < 7
      · rw [if_pos h7]
      · rw [if_neg h7]
        exact h0
  have hbad : getSlaveID frame = 0 ∨ cfg.servers.lookup (getSlaveID frame) = none :=
    Or.inl hgs
  obtain ⟨e1, hp1⟩ := parseRequest_error_of_bad cfg.servers frame hbad
  obtain ⟨e2, hp2⟩ := parseWriteSingle_error_of_bad cfg.servers frame hbad
  obtain ⟨e3, hp3⟩ := parseWriteMultiple_error_of_bad cfg.servers frame hbad
  refine ⟨?_, ?_, ?_, ?_, ?_, ?_, ?_, ?_⟩ <;>
    simp [readCoils, readDiscreteInputs, readHoldingRegisters, readInputRegisters,
      writeSingleCoil, writeSingleRegister, writeMultipleCoils, writeMultipleRegisters,
      hp1, hp2, hp3]

/-- C10 witness: a frame whose unit-identifier byte is 0 (a well-formed
request addressed to unit 0) yields IllegalDataAddress from Read Coils
without a backend call. -/
theorem zeroSlave_illegalDataAddress_witness :
    ((mkTcpFrame 0 1 [0, 0, 0, 1]).bytes.length < 7 ∨
      (mkTcpFrame 0 1 [0, 0, 0, 1]).bytes.getD 6 0 = 0) ∧
    readCoils cfg1 clients1 (mkTcpFrame 0 1 [0, 0, 0, 1]) (fun _ _ => .ok []) =
      (⟨none, illegalDataAddress, false⟩, clients1) :=
  ⟨by decide,
    (zeroSlave_illegalDataAddress cfg1 clients1 (mkTcpFrame 0 1 [0, 0, 0, 1])
      (fun _ _ => .ok []) (fun _ _ => .ok []) (fun _ _ => .ok []) (fun _ _ => .ok [])
      (fun _ _ => .ok []) (fun _ _ => .ok []) (fun _ _ _ => .ok []) (fun _ _ _ => .ok [])
      (by decide)).1⟩

/-- C5 amended: for a frame whose unit identifier is present, nonzero
and configured, decoding for codes 1 to 6 fails exactly when the PDU
data is shorter than 4 bytes, and decoding for codes 15 and 16 fails
exactly when the PDU data is shorter than 6 bytes or shorter than
5 + byteCount bytes (the code requires 6 bytes even when byteCount is 0,
which is stricter than the claimed 5 + byteCount minimum). -/
theorem parse_minLength_characterization (servers : List (Nat × Server)) (frame : Frame)
    (h7 : 7 ≤ frame.bytes.length) (hnz : frame.bytes.getD 6 0 ≠ 0)
    (hcfg : servers.lookup (frame.bytes.getD 6 0) ≠ none) :
    (isOkE (parseRequest servers frame) = true ↔ 4 ≤ frame.data.length) ∧
    (isOkE (parseWriteSingleRequest servers frame) = true ↔ 4 ≤ frame.data.length) ∧
    (isOkE (parseWriteMultipleRequest servers frame) = true ↔
      (6 ≤ frame.data.length ∧ 5 + frame.data.getD 4 0 ≤ frame.data.length)) := by
  have hgs : getSlaveID frame = frame.bytes.getD 6 0 := by
    unfold getSlaveID
    rw [if_neg (by omega)]
  refine ⟨?_, ?_, ?_⟩
  · rw [parseRequest_isOk_iff, hgs]
    constructor
    · exact fun h => h.1
    · exact fun h => ⟨h, hnz, hcfg⟩
  · rw [parseWriteSingle_isOk_iff, hgs]
    constructor
    · exact fun h => h.1
    · exact fun h => ⟨h, hnz, hcfg⟩
  · rw [parseWriteMultiple_isOk_iff, hgs]
    constructor
    · exact fun h => ⟨h.1, h.2.2.2⟩
    · exact fun h => ⟨h.1, hnz, hcfg, h.2⟩

/-- C5 witness: for a configured unit with a 4-byte PDU the read-request
parser succeeds, in accordance with the 4-byte minimum. -/
theorem parse_minLength_characterization_witness :
    7 ≤ (mkTcpFrame 1 3 [0, 0, 0, 1]).bytes.length ∧
    (isOkE (parseRequest cfg1.servers (mkTcpFrame 1 3 [0, 0, 0, 1])) = true ↔
      4 ≤ (mkTcpFrame 1 3 [0, 0, 0, 1]).data.length) :=
  ⟨by decide,
    (parse_minLength_characterization cfg1.servers (mkTcpFrame 1 3 [0, 0, 0, 1])
      (by decide) (by decide) (by decide)).1⟩

/-- C3 amended: for every Write Single Coil request that parses against
a configured slave with a connected client, the handler always invokes
the backend, passing the decoded value field unchanged whatever it is
(no validation of 0xFF00 or 0x0000 occurs), and the request succeeds
exactly when that backend call does. -/
theorem writeSingleCoil_forwards_raw_value (cfg : Config) (clients : List (Nat × ClientState))
    (frame : Frame) (backend : Backend2) (sid address value : Nat)
    (hp : parseWriteSingleRequest cfg.servers frame = .ok (sid, address, value))
    (hc : (clients.lookup sid).isSome = true) :
    (writeSingleCoil cfg clients frame backend).1.backendCalled = true ∧
    ((writeSingleCoil cfg clients frame backend).1.exception = success ↔
      isOkE (backend address value) = true) := by
  obtain ⟨c, hcc⟩ := Option.isSome_iff_exists.mp hc
  cases hb : backend address value <;>
    simp [writeSingleCoil, hp, hcc, hb, isOkE, success, slaveDeviceFailure]

/-- C3 amended witness: the logical-true value 0xFF00 parses and is
forwarded, the call succeeding with the stub backend. -/
theorem writeSingleCoil_forwards_raw_value_witness :
    parseWriteSingleRequest cfg1.servers (mkTcpFrame 1 5 [0, 0, 255, 0]) =
      .ok (1, 0, 65280) ∧
    (writeSingleCoil cfg1 clients1 (mkTcpFrame 1 5 [0, 0, 255, 0])
        (fun _ _ => .ok [])).1.backendCalled = true :=
  ⟨by decide,
    (writeSingleCoil_forwards_raw_value cfg1 clients1 (mkTcpFrame 1 5 [0, 0, 255, 0])
      (fun _ _ => .ok []) 1 0 65280 (by decide) (by decide)).1⟩

/-- C6 amended: the request-path handlers never touch the client state
— all eight return the client map unchanged, for success and failure
alike, and in particular never close a transport — while the health
monitor is the only updater: a failed probe records the error message
without touching lastConn or the transport, and a successful probe
clears lastError and refreshes lastConn. -/
theorem clientState_only_updated_by_monitor (cfg : Config)
    (clients : List (Nat × ClientState)) (frame : Frame)
    (b1 b2 b3 b4 b5 b6 : Backend2) (b7 b8 : Backend3) :
    (readCoils cfg clients frame b1).2 = clients ∧
    (readDiscreteInputs cfg clients frame b2).2 = clients ∧
    (readHoldingRegisters cfg clients frame b3).2 = clients ∧
    (readInputRegisters cfg clients frame b4).2 = clients ∧
    (writeSingleCoil cfg clients frame b5).2 = clients ∧
    (writeSingleRegister cfg clients frame b6).2 = clients ∧
    (writeMultipleCoils cfg clients frame b7).2 = clients ∧
    (writeMultipleRegisters cfg clients frame b8).2 = clients ∧
    (∀ (st : ClientState) (e : String) (now : Nat),
      (checkStep st (.error e) now).2.lastError = some e ∧
      (checkStep st (.error e) now).2.lastConn = st.lastConn ∧
      (checkStep st (.error e) now).2.transportOpen = st.transportOpen) ∧
    (∀ (st : ClientState) (res : List Nat) (now : Nat),
      (checkStep st (.ok res) now).2.lastError = none ∧
      (checkStep st (.ok res) now).2.lastConn = now ∧
      (checkStep st (.ok res) now).2.transportOpen = st.transportOpen) := by
  refine ⟨rfl, rfl, rfl, rfl, rfl, rfl, rfl, rfl, ?_, ?_⟩
  · intro st e now
    simp only [checkStep]
    split_ifs with h
    · exact ⟨rfl, rfl, rfl⟩
    · push_neg at h
      exact ⟨h.2, rfl, rfl⟩
  · intro st res now
    simp only [checkStep]
    split_ifs with h
    · exact ⟨rfl, rfl, rfl⟩
    · exact ⟨not_not.mp h, rfl, rfl⟩

/-- C7 amended: a health-probe tick on one connection emits a log line
exactly when the connection transitions from healthy to failing, from
failing to healthy, or remains failing with a changed error message;
consequently two consecutive failing probes with the same error emit no
second line, the comparison being made against the lastError retained in
the connection state. -/
theorem checkStep_log_characterization (st : ClientState)
    (probe : Except String (List Nat)) (now : Nat) :
    (checkStep st probe now).1 = true ↔
      ((st.lastError = none ∧ ∃ e, probe = .error e) ∨
       (st.lastError ≠ none ∧ ∃ r, probe = .ok r) ∨
       (∃ e m, probe = .error e ∧ st.lastError = some m ∧ m ≠ e)) := by
  cases probe with
  | error e =>
    cases hle : st.lastError with
    | none => simp [checkStep, hle]
    | some m =>
      by_cases hme : m = e
      · subst hme
        simp [checkStep, hle]
      · simp [checkStep, hle, hme]
  | ok r =>
    cases hle : st.lastError with
    | none => simp [checkStep, hle]
    | some m => simp [checkStep, hle]

end MbForwarder
